import Mathlib

/-!
Shallow embedding of the DI-1141 annotation-mismatch reconciliation pipeline
(compare_vcf_hgvs.py, query_validator_api.py, compare_validator_vcf.py).

Dataframes are modelled as lists of row structures. Missing values (pandas
NaN) are modelled as `Option.none`; the pandas column comparison `!=`, which
evaluates to True whenever either side is NaN (including NaN vs NaN), is
modelled by `pandasNe`.
-/

namespace DI1141

/-- One row of a filtered VEP VCF read by compare_vcf_hgvs.read_file:
columns CHROM, POS, REF, ALT, Consequence_version, Feature, HGVSc_version,
HGVSp_version. Non-key annotation fields may be missing (NaN). -/
structure AnnotationRecord where
  chrom : String
  pos : Int
  ref : String
  alt : String
  consequence : Option String
  feature : String
  hgvsc : Option String
  hgvsp : Option String
deriving DecidableEq, Repr

/-- One row of the merged old/new table built inside
compare_vcf_hgvs.find_mismatches (and hence of any_mismatches.tsv):
the shared join key plus both versions of the three compared fields. -/
structure MergedRow where
  chrom : String
  pos : Int
  ref : String
  alt : String
  feature : String
  consequenceOld : Option String
  consequenceNew : Option String
  hgvscOld : Option String
  hgvscNew : Option String
  hgvspOld : Option String
  hgvspNew : Option String
deriving DecidableEq, Repr

/-- pandas element-wise `!=` on columns that may hold NaN: NaN compares
unequal to everything, including another NaN. -/
def pandasNe (a b : Option String) : Bool :=
  match a, b with
  | some x, some y => x != y
  | _, _ => true

/-- Python str.startswith, on the character sequence of the string. -/
def strStartsWith (s pat : String) : Bool :=
  pat.data.isPrefixOf s.data

/-- Python str.endswith, on the character sequence of the string. -/
def strEndsWith (s pat : String) : Bool :=
  pat.data.isSuffixOf s.data

/-- Join key of pd.merge(..., on=["CHROM", "POS", "REF", "ALT", "Feature"]). -/
def annKeyMatch (o n : AnnotationRecord) : Bool :=
  o.chrom == n.chrom && o.pos == n.pos && o.ref == n.ref && o.alt == n.alt
    && o.feature == n.feature

/-- The merged row produced from an old-version record and a new-version
record sharing the join key. -/
def pairRow (o n : AnnotationRecord) : MergedRow :=
  ⟨o.chrom, o.pos, o.ref, o.alt, o.feature,
   o.consequence, n.consequence, o.hgvsc, n.hgvsc, o.hgvsp, n.hgvsp⟩

/-- pd.merge(annotations_old, annotations_new, on=key, how="inner"): every
old row paired with every new row having the same key. -/
def mergeInner (old new : List AnnotationRecord) : List MergedRow :=
  old.flatMap fun o => ((new.filter fun n => annKeyMatch o n).map fun n => pairRow o n)

/-- The mismatch predicate of find_mismatches: any of Consequence, HGVSc,
HGVSp differs between the two versions (pandas `!=` semantics). -/
def anyMismatchB (r : MergedRow) : Bool :=
  pandasNe r.consequenceOld r.consequenceNew
    || pandasNe r.hgvscOld r.hgvscNew
    || pandasNe r.hgvspOld r.hgvspNew

/-- compare_vcf_hgvs.find_mismatches: inner-merge the two annotation sets,
keep rows where any compared field differs, then drop NR_ transcripts. -/
def find_mismatches (old new : List AnnotationRecord) : List MergedRow :=
  ((mergeInner old new).filter anyMismatchB).filter
    fun r => !(strStartsWith r.feature "NR_")

/-- pandas DataFrame.drop_duplicates: keep the first occurrence of each
value, preserving order. -/
def dropDuplicates {α : Type} [DecidableEq α] : List α → List α
  | [] => []
  | x :: xs => x :: dropDuplicates (xs.filter fun y => y != x)
termination_by l => l.length
decreasing_by
  simp only [List.length_cons]
  exact Nat.lt_succ_of_le (List.length_filter_le _ _)

/-- compare_vcf_hgvs.main: concatenate the per-sample mismatch tables and
drop exact duplicate rows before writing any_mismatches.tsv. -/
def pool_sample_mismatches (samples : List (List MergedRow)) : List MergedRow :=
  dropDuplicates samples.flatten

/-- query_validator_api.read_in_mismatches: the added variant_description
column, "-".join over CHROM, POS, REF, ALT rendered as strings. -/
def variant_description (r : MergedRow) : String :=
  r.chrom ++ "-" ++ toString r.pos ++ "-" ++ r.ref ++ "-" ++ r.alt

/-- One row of the dataframe produced by
get_df_unique_variants_and_their_transcripts: a unique variant description
together with the pipe-joined Feature strings of its mismatch rows. -/
structure WorkItem where
  variant_description : String
  feature : String
deriving DecidableEq, Repr

/-- Python "|".join over a list of strings. -/
def joinPipe : List String → String
  | [] => ""
  | [x] => x
  | x :: y :: xs => x ++ "|" ++ joinPipe (y :: xs)

/-- query_validator_api.get_df_unique_variants_and_their_transcripts:
groupby variant_description, aggregating Feature with "|".join. (pandas
emits the groups in sorted key order; the claims checked here are
insensitive to row order, so first-occurrence order is used.) -/
def get_df_unique_variants_and_their_transcripts
    (rows : List MergedRow) : List WorkItem :=
  (dropDuplicates (rows.map variant_description)).map fun v =>
    ⟨v, joinPipe (((rows.filter fun r => variant_description r == v).map
        fun r => r.feature))⟩

/-! ### Validator batch client (query_validator_api.py)

The oracle is modelled as a function from a work item and an attempt index
to the HTTP response the server gives on that attempt. The JSON body is
modelled, already decoded, as the list of top-level response entries. -/

/-- The hgvs_t_and_p value for one transcript in the oracle response. -/
structure HgvsTandP where
  t_hgvs : Option String
  p_hgvs_tlc : Option String
deriving DecidableEq, Repr

/-- One top-level key of the oracle JSON response together with the
hgvs_t_and_p map found under it (the nested lookup
response[variant][variant]["hgvs_t_and_p"] is modelled directly). -/
structure VVEntry where
  key : String
  hgvs_t_and_p : List (String × HgvsTandP)
deriving DecidableEq, Repr

/-- One row appended by format_results: variant, Feature, HGVSc_validator,
HGVSp_validator. -/
structure VResult where
  variant : String
  feature : String
  hgvscValidator : Option String
  hgvspValidator : Option String
deriving DecidableEq, Repr

/-- query_validator_api.format_results: flatten the response into one row
per (variant, transcript), skipping the reserved "metadata" key. -/
def format_results (resp : List VVEntry) : List VResult :=
  (resp.filter fun e => e.key != "metadata").flatMap fun e =>
    e.hgvs_t_and_p.map fun th => ⟨e.key, th.1, th.2.t_hgvs, th.2.p_hgvs_tlc⟩

/-- An HTTP response: status code plus decoded JSON body (only read on a
successful status). -/
structure HttpResp where
  status : Nat
  body : List VVEntry

/-- What a single requests.get inside fetch_endpoint does with a response:
status 429 raises (to trigger the tenacity retry), status 500 returns None,
an ok status (below 400) returns the JSON body, and any other status
raises via response.raise_for_status (which tenacity also retries). -/
inductive AttemptOutcome where
  | raised
  | returnedNone
  | returned (body : List VVEntry)

/-- Dispatch on the status code, in the order the source checks it. -/
def attemptOutcome (resp : HttpResp) : AttemptOutcome :=
  if resp.status = 429 then .raised
  else if resp.status = 500 then .returnedNone
  else if resp.status < 400 then .returned resp.body
  else .raised

/-- The observable result of the tenacity-wrapped fetch_endpoint. -/
inductive FetchOutcome where
  | success (body : List VVEntry)
  | skipped
  | retryError
deriving DecidableEq, Repr

/-- The tenacity retry driver with stop_after_attempt: run attempts until
one returns or the attempt budget is exhausted, in which case a RetryError
is raised. Returns the outcome and the number of HTTP requests made. -/
def fetchGo (responses : Nat → HttpResp) : Nat → Nat → FetchOutcome × Nat
  | 0, made => (.retryError, made)
  | n + 1, made =>
    match attemptOutcome (responses made) with
    | .returned b => (.success b, made + 1)
    | .returnedNone => (.skipped, made + 1)
    | .raised => fetchGo responses n (made + 1)

/-- query_validator_api.fetch_endpoint under its decorators:
stop_after_attempt(5) gives at most 5 attempts in total. -/
def fetch_endpoint (responses : Nat → HttpResp) : FetchOutcome × Nat :=
  fetchGo responses 5 0

/-- The inner loop of query_chunks_and_output over one chunk: query each
work item in turn; a successful truthy response is formatted and appended,
a None (500) response contributes nothing, and a RetryError propagates,
abandoning the rest of the chunk. Returns `none` on such an abort, and the
total number of HTTP requests made. -/
def processItems (oracle : WorkItem → Nat → HttpResp) :
    List WorkItem → Option (List VResult) × Nat
  | [] => (some [], 0)
  | w :: ws =>
    match fetch_endpoint (oracle w) with
    | (.retryError, c) => (none, c)
    | (.skipped, c) =>
      let rest := processItems oracle ws
      (rest.1, c + rest.2)
    | (.success b, c) =>
      let rest := processItems oracle ws
      if b = [] then (rest.1, c + rest.2)
      else ((rest.1.map fun rs => format_results b ++ rs), c + rest.2)

/-- The observable effect of one query_chunks_and_output invocation: the
chunk files written this run (chunk index with contents), the total number
of HTTP requests made, and whether an uncaught error aborted the loop. -/
structure BatchResult where
  written : List (Nat × List VResult)
  calls : Nat
  aborted : Bool
deriving DecidableEq, Repr

/-- The chunk loop of query_chunks_and_output over enumerated chunks: a
chunk whose output file already exists is skipped outright; otherwise its
items are queried and its file written; an uncaught RetryError stops
everything that follows. -/
def runChunks (oracle : WorkItem → Nat → HttpResp) (existing : Nat → Bool) :
    List (Nat × List WorkItem) → BatchResult
  | [] => ⟨[], 0, false⟩
  | (i, c) :: rest =>
    if existing i then runChunks oracle existing rest
    else
      match processItems oracle c with
      | (none, calls) => ⟨[], calls, true⟩
      | (some res, calls) =>
        let r := runChunks oracle existing rest
        ⟨(i, res) :: r.written, calls + r.calls, r.aborted⟩

/-- Python enumerate starting from a given index. -/
def enumerateFrom {α : Type} (i : Nat) : List α → List (Nat × α)
  | [] => []
  | a :: as => (i, a) :: enumerateFrom (i + 1) as

/-- query_validator_api.query_chunks_and_output. -/
def query_chunks_and_output (oracle : WorkItem → Nat → HttpResp)
    (existing : Nat → Bool) (chunks : List (List WorkItem)) : BatchResult :=
  runChunks oracle existing (enumerateFrom 0 chunks)

/-! ### Reconciler in query_validator_api.py
(gather_vv_files_and_merge_with_vep_mismatches) -/

/-- Join condition of the final left merge: left_on
(variant_description, Feature), right_on (variant, Feature). -/
def vresultKeyMatch (m : MergedRow) (v : VResult) : Bool :=
  variant_description m == v.variant && m.feature == v.feature

/-- One row of the left-merged output table: the mismatch row plus the
oracle columns, which are all NaN when the row found no oracle match. -/
structure FinalMergedRow where
  mismatch : MergedRow
  variant : Option String
  hgvscValidator : Option String
  hgvspValidator : Option String
deriving DecidableEq, Repr

/-- The contribution of one left-side row to a pandas left merge: one
output row per matching right row, or a single row with NaN right columns
when nothing matches. -/
def leftMergeRow (vs : List VResult) (m : MergedRow) : List FinalMergedRow :=
  let hits := vs.filter fun v => vresultKeyMatch m v
  if hits.isEmpty then [⟨m, none, none, none⟩]
  else hits.map fun v => ⟨m, some v.variant, v.hgvscValidator, v.hgvspValidator⟩

/-- The pd.merge(..., how="left") inside
gather_vv_files_and_merge_with_vep_mismatches: each mismatch row paired
with every matching oracle row, or kept once with NaN oracle columns when
no oracle row matches. -/
def merge_with_vep_mismatches (ms : List MergedRow) (vs : List VResult) :
    List FinalMergedRow :=
  ms.flatMap (leftMergeRow vs)

/-! ### Reconciler and classifier in compare_validator_vcf.py -/

/-- One row of the parsed VariantValidator batch table
(parse_validator_batch output): split variant key, Feature, and the two
validator nomenclature columns. -/
structure VvBatchRow where
  chrom : String
  pos : Int
  ref : String
  alt : String
  feature : String
  hgvscValidator : Option String
  hgvspValidator : Option String
deriving DecidableEq, Repr

/-- One row of the merged validator/mismatch table consumed by
convention_changes and the classifier. -/
structure ReconciledRow where
  chrom : String
  pos : Int
  ref : String
  alt : String
  feature : String
  consequenceOld : Option String
  consequenceNew : Option String
  hgvscOld : Option String
  hgvscNew : Option String
  hgvspOld : Option String
  hgvspNew : Option String
  hgvscValidator : Option String
  hgvspValidator : Option String
deriving DecidableEq, Repr

/-- Join key of merge_mismatches_batch:
on=["CHROM", "POS", "REF", "ALT", "Feature"]. -/
def batchKeyMatch (v : VvBatchRow) (m : MergedRow) : Bool :=
  v.chrom == m.chrom && v.pos == m.pos && v.ref == m.ref && v.alt == m.alt
    && v.feature == m.feature

/-- The merged row built from one validator row and one mismatch row. -/
def toReconciled (v : VvBatchRow) (m : MergedRow) : ReconciledRow :=
  ⟨m.chrom, m.pos, m.ref, m.alt, m.feature,
   m.consequenceOld, m.consequenceNew, m.hgvscOld, m.hgvscNew,
   m.hgvspOld, m.hgvspNew, v.hgvscValidator, v.hgvspValidator⟩

/-- compare_validator_vcf.merge_mismatches_batch: pd.merge with
how="inner"; as called from main, the parsed validator batch is the left
side and the mismatches table the right side. -/
def merge_mismatches_batch (vv : List VvBatchRow) (ms : List MergedRow) :
    List ReconciledRow :=
  vv.flatMap fun v => ((ms.filter fun m => batchKeyMatch v m).map fun m =>
    toReconciled v m)

/-- The regex substitution str.replace with pattern a character class of
the two parentheses and empty replacement: delete every parenthesis. -/
def stripParens (s : String) : String :=
  ⟨s.data.filter fun c => !(c = '(' || c = ')')⟩

/-- str.replace of the single character "=" by "%3D". -/
def encodeEquals (s : String) : String :=
  ⟨s.data.flatMap fun c => if c = '=' then "%3D".data else [c]⟩

/-- compare_validator_vcf.convention_changes, per row: a HGVSp_validator
value ending in "p.?" is replaced by ".", then "(" and ")" are removed,
then "=" becomes "%3D". A NaN protein value is left as NaN; no other
column is touched. -/
def convention_changes (r : ReconciledRow) : ReconciledRow :=
  let p1 := r.hgvspValidator.map fun s => if strEndsWith s "p.?" then "." else s
  let p2 := p1.map stripParens
  let p3 := p2.map encodeEquals
  { r with hgvspValidator := p3 }

/-- The six mismatch-flag columns added by find_vep_validator_mismatches,
kept with the row they were computed from. -/
structure FlaggedRow where
  row : ReconciledRow
  hgvscOldMismatch : Bool
  hgvscNewMismatch : Bool
  hgvspOldMismatch : Bool
  hgvspNewMismatch : Bool
  hgvscBothMismatch : Bool
  hgvspBothMismatch : Bool
deriving DecidableEq, Repr

/-- compare_validator_vcf.find_vep_validator_mismatches, per row: pandas
`!=` of each VEP column against the validator column, and the conjunction
for the both-mismatch columns. -/
def find_vep_validator_mismatches (r : ReconciledRow) : FlaggedRow :=
  let co := pandasNe r.hgvscOld r.hgvscValidator
  let cn := pandasNe r.hgvscNew r.hgvscValidator
  let po := pandasNe r.hgvspOld r.hgvspValidator
  let pn := pandasNe r.hgvspNew r.hgvspValidator
  ⟨r, co, cn, po, pn, co && cn, po && pn⟩

/-- The aggregate .sum() of the HGVSc old-version mismatch column. -/
def hgvscOldMismatchCount (rows : List ReconciledRow) : Nat :=
  (rows.filter fun r => (find_vep_validator_mismatches r).hgvscOldMismatch).length

/-- The aggregate .sum() of the HGVSc new-version mismatch column. -/
def hgvscNewMismatchCount (rows : List ReconciledRow) : Nat :=
  (rows.filter fun r => (find_vep_validator_mismatches r).hgvscNewMismatch).length

/-- The aggregate .sum() of the HGVSc both-mismatch column. -/
def hgvscBothMismatchCount (rows : List ReconciledRow) : Nat :=
  (rows.filter fun r => (find_vep_validator_mismatches r).hgvscBothMismatch).length

/-- The aggregate .sum() of the HGVSp old-version mismatch column. -/
def hgvspOldMismatchCount (rows : List ReconciledRow) : Nat :=
  (rows.filter fun r => (find_vep_validator_mismatches r).hgvspOldMismatch).length

/-- The aggregate .sum() of the HGVSp new-version mismatch column. -/
def hgvspNewMismatchCount (rows : List ReconciledRow) : Nat :=
  (rows.filter fun r => (find_vep_validator_mismatches r).hgvspNewMismatch).length

/-- The aggregate .sum() of the HGVSp both-mismatch column. -/
def hgvspBothMismatchCount (rows : List ReconciledRow) : Nat :=
  (rows.filter fun r => (find_vep_validator_mismatches r).hgvspBothMismatch).length

/-- The four transition columns added by find_new_changes, kept with the
flag columns they were computed from. -/
structure TransitionRow where
  flagged : FlaggedRow
  hgvscNewlyCorrected : Bool
  hgvspNewlyCorrected : Bool
  hgvscNewlyWrong : Bool
  hgvspNewlyWrong : Bool
deriving DecidableEq, Repr

/-- compare_validator_vcf.find_new_changes, per row: read the mismatch-flag
columns and derive newly corrected (old flag True, new flag False) and
newly wrong (old flag False, new flag True), independently per field. -/
def find_new_changes (f : FlaggedRow) : TransitionRow :=
  ⟨f,
   f.hgvscOldMismatch && !f.hgvscNewMismatch,
   f.hgvspOldMismatch && !f.hgvspNewMismatch,
   !f.hgvscOldMismatch && f.hgvscNewMismatch,
   !f.hgvspOldMismatch && f.hgvspNewMismatch⟩

/-! ### Concrete rows used by witnesses and counterexamples -/

/-- A concrete mismatch row: variant 1-100-A-G on transcript NM_1. -/
def mEx1 : MergedRow :=
  ⟨"1", 100, "A", "G", "NM_1", some "missense_variant", some "synonymous_variant",
   some "c.100A>G", some "c.101A>G", some "p.K34R", some "p.K35R"⟩

/-- A concrete mismatch row: variant 2-300-C-T on transcript NM_9. -/
def mEx1b : MergedRow :=
  ⟨"2", 300, "C", "T", "NM_9", some "stop_gained", some "stop_lost",
   some "c.300C>T", some "c.300C>A", some "p.R100X", some "p.X100R"⟩

/-- A concrete validator batch row whose key matches no mismatch row used
alongside it. -/
def vvEx1 : VvBatchRow :=
  ⟨"1", 200, "A", "G", "NM_1", some "c.200A>G", some "p.X1Y"⟩

/-- A concrete oracle result matching mEx1 but not mEx1b. -/
def vEx1 : VResult :=
  ⟨"1-100-A-G", "NM_1", some "c.100A>G", some "p.K34R"⟩

/-- Concrete work items for the batch-client examples. -/
def wEx2a : WorkItem := ⟨"1-100-A-G", "NM_1"⟩

/-- A second work item, queued after wEx2a. -/
def wEx2b : WorkItem := ⟨"1-200-C-T", "NM_2"⟩

/-- A work item for the server-error example. -/
def wEx8 : WorkItem := ⟨"3-50-G-A", "NM_3"⟩

/-- A reconciled row whose oracle HGVSc column is NaN while every
other field agrees exactly with the oracle where present. -/
def rEx3 : ReconciledRow :=
  ⟨"1", 100, "A", "G", "NM_1", some "missense_variant", some "missense_variant",
   some "c.100A>G", some "c.100A>G", some "p.K34R", some "p.K34R",
   none, some "p.K34R"⟩

/-- A reconciled row whose oracle HGVSp column is NaN while every
other field agrees exactly with the oracle where present. -/
def rEx3p : ReconciledRow :=
  ⟨"1", 100, "A", "G", "NM_1", some "missense_variant", some "missense_variant",
   some "c.100A>G", some "c.100A>G", some "p.K34R", some "p.K34R",
   some "c.100A>G", none⟩

/-- A concrete old-version annotation record. -/
def oEx4 : AnnotationRecord :=
  ⟨"1", 100, "A", "G", some "missense_variant", "NM_1", some "c.100A>G", some "p.K34R"⟩

/-- The matching new-version record, differing only in consequence. -/
def nEx4 : AnnotationRecord :=
  ⟨"1", 100, "A", "G", some "synonymous_variant", "NM_1", some "c.100A>G", some "p.K34R"⟩

/-- An old-version record whose HGVSp is missing. -/
def oEx10 : AnnotationRecord :=
  ⟨"2", 55, "C", "T", some "intron_variant", "NM_7", some "c.9C>T", none⟩

/-- The matching new-version record, identical, HGVSp missing too. -/
def nEx10 : AnnotationRecord :=
  ⟨"2", 55, "C", "T", some "intron_variant", "NM_7", some "c.9C>T", none⟩

/-- A reconciled row whose oracle protein value carries the
no-protein-change placeholder. -/
def rEx6 : ReconciledRow :=
  ⟨"1", 100, "A", "G", "NM_1", some "missense_variant", some "missense_variant",
   some "c.100A>G", some "c.100A>G", some "p.K34R", some "p.K34R",
   some "c.100A>G", some "NM_000000.1:p.?"⟩

/-- A concrete mismatch row for the deduplication witness. -/
def mEx7 : MergedRow :=
  ⟨"1", 100, "A", "G", "NM_1", some "missense_variant", some "synonymous_variant",
   some "c.100A>G", some "c.101A>G", some "p.K34R", some "p.K35R"⟩

/-! ## Theorems -/

/-- Membership survives dropDuplicates. -/
theorem mem_dropDuplicates {α : Type} [DecidableEq α] (a : α) (l : List α) :
    a ∈ dropDuplicates l ↔ a ∈ l := by
  induction l using dropDuplicates.induct with
  | case1 => simp [dropDuplicates]
  | case2 x xs ih =>
    rw [dropDuplicates]
    simp only [List.mem_cons, ih, List.mem_filter, bne_iff_ne]
    by_cases hax : a = x
    · simp [hax]
    · simp [hax]

/-- dropDuplicates output has no duplicates. -/
theorem nodup_dropDuplicates {α : Type} [DecidableEq α] (l : List α) :
    (dropDuplicates l).Nodup := by
  induction l using dropDuplicates.induct with
  | case1 => simp [dropDuplicates]
  | case2 x xs ih =>
    rw [dropDuplicates]
    refine List.nodup_cons.mpr ⟨?_, ih⟩
    intro hx
    rw [mem_dropDuplicates] at hx
    simp [List.mem_filter] at hx

/-- Filtering a replicate by inequality with the replicated value gives
the empty list. -/
theorem filter_bne_replicate {α : Type} [DecidableEq α] (n : Nat) (r : α) :
    (List.replicate n r).filter (fun y => y != r) = [] := by
  induction n with
  | zero => rfl
  | succ n ih => simp [List.replicate_succ, List.filter_cons, ih]

/-- dropDuplicates collapses a nonempty replicate to a singleton. -/
theorem dropDuplicates_replicate {α : Type} [DecidableEq α] (n : Nat) (r : α)
    (h : 0 < n) : dropDuplicates (List.replicate n r) = [r] := by
  cases n with
  | zero => exact absurd h (by simp)
  | succ n =>
    rw [List.replicate_succ, dropDuplicates, filter_bne_replicate]
    simp [dropDuplicates]

/-- Flattening n copies of a singleton sample gives an n-fold replicate. -/
theorem flatten_replicate_singleton {α : Type} (n : Nat) (r : α) :
    (List.replicate n ([r] : List α)).flatten = List.replicate n r := by
  induction n with
  | zero => rfl
  | succ n ih => simp [List.replicate_succ, ih]

/-- Claim C7: work items are one per distinct variant description: the
variant descriptions of the emitted work items are duplicate-free and
cover exactly the variant descriptions of the input mismatch rows; each
work item carries the pipe-joined transcripts of the rows of its variant;
and pooling the same mismatch row from each of n samples (n positive)
through the concatenate-and-drop-duplicates stage yields exactly one work
item for it, independently of n. -/
theorem work_items_unique_per_variant (rows : List MergedRow) :
    ((get_df_unique_variants_and_their_transcripts rows).map
        (fun it => it.variant_description)).Nodup
    ∧ (∀ v, v ∈ (get_df_unique_variants_and_their_transcripts rows).map
          (fun it => it.variant_description) ↔ v ∈ rows.map variant_description)
    ∧ (∀ it ∈ get_df_unique_variants_and_their_transcripts rows,
        it.feature = joinPipe ((rows.filter
          (fun r => variant_description r == it.variant_description)).map
            (fun r => r.feature)))
    ∧ ∀ (n : Nat) (r : MergedRow), 0 < n →
        get_df_unique_variants_and_their_transcripts
            (pool_sample_mismatches (List.replicate n [r]))
          = [⟨variant_description r, r.feature⟩] := by
  refine ⟨?_, ?_, ?_, ?_⟩
  · rw [get_df_unique_variants_and_their_transcripts, List.map_map]
    simpa [Function.comp_def] using nodup_dropDuplicates (rows.map variant_description)
  · intro v
    rw [get_df_unique_variants_and_their_transcripts, List.map_map]
    simpa [Function.comp_def] using mem_dropDuplicates v (rows.map variant_description)
  · intro it hit
    rw [get_df_unique_variants_and_their_transcripts] at hit
    obtain ⟨v, hv, rfl⟩ := List.mem_map.mp hit
    rfl
  · intro n r hn
    rw [pool_sample_mismatches, flatten_replicate_singleton,
      dropDuplicates_replicate n r hn]
    simp [get_df_unique_variants_and_their_transcripts, dropDuplicates, joinPipe]

/-- Witness for C7: three samples each contributing the same mismatch row
produce exactly one work item. -/
theorem work_items_unique_per_variant_witness :
    (0 : Nat) < 3
    ∧ get_df_unique_variants_and_their_transcripts
          (pool_sample_mismatches (List.replicate 3 [mEx7]))
        = [⟨variant_description mEx7, mEx7.feature⟩] :=
  ⟨by decide, (work_items_unique_per_variant [mEx7]).2.2.2 3 mEx7 (by decide)⟩

/-- Membership in the Merger output, unfolded. -/
theorem mem_find_mismatches (old new : List AnnotationRecord) (r : MergedRow) :
    r ∈ find_mismatches old new ↔
      ∃ o, o ∈ old ∧ ∃ n, n ∈ new ∧ annKeyMatch o n = true ∧ pairRow o n = r
        ∧ anyMismatchB r = true ∧ strStartsWith r.feature "NR_" = false := by
  simp only [find_mismatches, List.mem_filter, mergeInner, List.mem_flatMap,
    List.mem_map, Bool.not_eq_true']
  constructor
  · rintro ⟨⟨⟨o, ho, n, hn, rfl⟩, hmis⟩, hnr⟩
    exact ⟨o, ho, n, hn.1, hn.2, rfl, hmis, hnr⟩
  · rintro ⟨o, ho, n, hn, hkey, rfl, hmis, hnr⟩
    exact ⟨⟨⟨o, ho, n, ⟨hn, hkey⟩, rfl⟩, hmis⟩, hnr⟩

/-- Two key-matching pairs producing the same merged row are equal. -/
theorem pairRow_inj {a b o n : AnnotationRecord}
    (hab : annKeyMatch a b = true) (hon : annKeyMatch o n = true)
    (h : pairRow a b = pairRow o n) : a = o ∧ b = n := by
  simp only [annKeyMatch, Bool.and_eq_true, beq_iff_eq] at hab hon
  cases a; cases b; cases o; cases n
  simp only [pairRow, MergedRow.mk.injEq] at h
  simp only [AnnotationRecord.mk.injEq]
  simp_all

/-- On present values, pandas inequality is exact string inequality. -/
theorem pandasNe_some {a b : Option String} (ha : a.isSome = true)
    (hb : b.isSome = true) : pandasNe a b = true ↔ a ≠ b := by
  cases a <;> cases b <;> simp_all [pandasNe, bne_iff_ne]

/-- Claim C4: for records with all three compared fields present, a merged
row for a key-matching pair is emitted by find_mismatches iff the old
record is in the old input, the new record is in the new input, at least
one of consequence, HGVSc, HGVSp differs exactly, and the transcript does
not begin with "NR_"; moreover no output row ever has an "NR_"
transcript. -/
theorem merger_emits_iff (old new : List AnnotationRecord)
    (o n : AnnotationRecord) (hkey : annKeyMatch o n = true)
    (ho : o.consequence.isSome = true ∧ o.hgvsc.isSome = true ∧ o.hgvsp.isSome = true)
    (hn : n.consequence.isSome = true ∧ n.hgvsc.isSome = true ∧ n.hgvsp.isSome = true) :
    (pairRow o n ∈ find_mismatches old new ↔
      (o ∈ old ∧ n ∈ new
        ∧ (o.consequence ≠ n.consequence ∨ o.hgvsc ≠ n.hgvsc ∨ o.hgvsp ≠ n.hgvsp)
        ∧ strStartsWith o.feature "NR_" = false))
    ∧ ∀ r ∈ find_mismatches old new, strStartsWith r.feature "NR_" = false := by
  have hmisIff : anyMismatchB (pairRow o n) = true ↔
      (o.consequence ≠ n.consequence ∨ o.hgvsc ≠ n.hgvsc ∨ o.hgvsp ≠ n.hgvsp) := by
    simp [anyMismatchB, pairRow, Bool.or_eq_true, or_assoc,
      pandasNe_some ho.1 hn.1, pandasNe_some ho.2.1 hn.2.1,
      pandasNe_some ho.2.2 hn.2.2]
  constructor
  · rw [mem_find_mismatches]
    constructor
    · rintro ⟨a, ha, b, hb, hab, heq, hmis, hnr⟩
      obtain ⟨rfl, rfl⟩ := pairRow_inj hab hkey heq
      exact ⟨ha, hb, hmisIff.mp hmis, hnr⟩
    · rintro ⟨ho', hn', hdiff, hnr⟩
      exact ⟨o, ho', n, hn', hkey, rfl, hmisIff.mpr hdiff, hnr⟩
  · intro r hr
    rw [mem_find_mismatches] at hr
    obtain ⟨_, _, _, _, _, _, _, hnr⟩ := hr
    exact hnr

/-- Witness for C4: a pair differing only in consequence on a non-NR
transcript is emitted. -/
theorem merger_emits_iff_witness :
    pairRow oEx4 nEx4 ∈ find_mismatches [oEx4] [nEx4] :=
  ((merger_emits_iff [oEx4] [nEx4] oEx4 nEx4 (by decide)
    ⟨by decide, by decide, by decide⟩ ⟨by decide, by decide, by decide⟩).1).mpr
    ⟨by decide, by decide, Or.inl (by decide), by decide⟩

/-- Claim C10: a key-matching pair with one compared field missing on both
sides is emitted by find_mismatches (missing compares unequal to missing),
regardless of the other fields, provided the transcript is not NR_. -/
theorem both_missing_field_emitted (old new : List AnnotationRecord)
    (o n : AnnotationRecord) (ho : o ∈ old) (hn : n ∈ new)
    (hkey : annKeyMatch o n = true)
    (hmiss : (o.consequence = none ∧ n.consequence = none)
      ∨ (o.hgvsc = none ∧ n.hgvsc = none)
      ∨ (o.hgvsp = none ∧ n.hgvsp = none))
    (hnr : strStartsWith o.feature "NR_" = false) :
    pairRow o n ∈ find_mismatches old new := by
  rw [mem_find_mismatches]
  refine ⟨o, ho, n, hn, hkey, rfl, ?_, hnr⟩
  rcases hmiss with ⟨h1, h2⟩ | ⟨h1, h2⟩ | ⟨h1, h2⟩ <;>
    simp [anyMismatchB, pairRow, pandasNe, h1, h2]

/-- Witness for C10: two identical records, HGVSp missing in both, the
other two fields equal and present, are emitted as a mismatch. -/
theorem both_missing_field_emitted_witness :
    (oEx10.consequence = nEx10.consequence ∧ oEx10.hgvsc = nEx10.hgvsc)
    ∧ pairRow oEx10 nEx10 ∈ find_mismatches [oEx10] [nEx10] :=
  ⟨⟨rfl, rfl⟩,
   both_missing_field_emitted [oEx10] [nEx10] oEx10 nEx10 (by decide) (by decide)
     (by decide) (Or.inr (Or.inr ⟨rfl, rfl⟩)) (by decide)⟩

/-- Claim C5: per reconciled row, newly_corrected is true iff the old
version mismatched the oracle and the new one did not, newly_wrong is true
iff the old version did not mismatch and the new one did, and
both_mismatch is true iff both versions mismatched; each flag is computed
independently for HGVSc and HGVSp. -/
theorem classifier_transition_flags (r : ReconciledRow) :
    ((find_new_changes (find_vep_validator_mismatches r)).hgvscNewlyCorrected = true
      ↔ ((find_vep_validator_mismatches r).hgvscOldMismatch = true
          ∧ (find_vep_validator_mismatches r).hgvscNewMismatch = false))
    ∧ ((find_new_changes (find_vep_validator_mismatches r)).hgvspNewlyCorrected = true
      ↔ ((find_vep_validator_mismatches r).hgvspOldMismatch = true
          ∧ (find_vep_validator_mismatches r).hgvspNewMismatch = false))
    ∧ ((find_new_changes (find_vep_validator_mismatches r)).hgvscNewlyWrong = true
      ↔ ((find_vep_validator_mismatches r).hgvscOldMismatch = false
          ∧ (find_vep_validator_mismatches r).hgvscNewMismatch = true))
    ∧ ((find_new_changes (find_vep_validator_mismatches r)).hgvspNewlyWrong = true
      ↔ ((find_vep_validator_mismatches r).hgvspOldMismatch = false
          ∧ (find_vep_validator_mismatches r).hgvspNewMismatch = true))
    ∧ ((find_vep_validator_mismatches r).hgvscBothMismatch = true
      ↔ ((find_vep_validator_mismatches r).hgvscOldMismatch = true
          ∧ (find_vep_validator_mismatches r).hgvscNewMismatch = true))
    ∧ ((find_vep_validator_mismatches r).hgvspBothMismatch = true
      ↔ ((find_vep_validator_mismatches r).hgvspOldMismatch = true
          ∧ (find_vep_validator_mismatches r).hgvspNewMismatch = true)) := by
  cases hco : pandasNe r.hgvscOld r.hgvscValidator <;>
  cases hcn : pandasNe r.hgvscNew r.hgvscValidator <;>
  cases hpo : pandasNe r.hgvspOld r.hgvspValidator <;>
  cases hpn : pandasNe r.hgvspNew r.hgvspValidator <;>
    simp [find_vep_validator_mismatches, find_new_changes, hco, hcn, hpo, hpn]

/-- Counterexample to claim C3: a reconciled row whose oracle HGVSc column
is NaN while both VEP versions agree exactly with the oracle where it is
present. The claim says the null contributes neither a match nor a
mismatch to any flag or count, yet the code sets every HGVSc flag and
bumps the HGVSc aggregate count for this row (pandas NaN compares unequal
to everything); the HGVSp count stays 0 only because that column is
present and equal. -/
theorem null_oracle_field_counted_example :
    (find_vep_validator_mismatches rEx3).hgvscOldMismatch = true
    ∧ (find_vep_validator_mismatches rEx3).hgvscNewMismatch = true
    ∧ (find_vep_validator_mismatches rEx3).hgvscBothMismatch = true
    ∧ hgvscOldMismatchCount [rEx3] = 1
    ∧ hgvscBothMismatchCount [rEx3] = 1
    ∧ hgvspOldMismatchCount [rEx3] = 0 := by
  decide

/-- Claim C3 amended: a mismatch row with no oracle answer at all is
dropped by the inner join of merge_mismatches_batch before classification
and so contributes nothing, but a reconciled row carrying a NaN value in
either oracle field (HGVSc_validator or HGVSp_validator) is counted as a
mismatch for that field for both versions (and so for both_mismatch and
every aggregate count of that field), not excluded. -/
theorem null_oracle_field_counts_as_mismatch (r : ReconciledRow) :
    (r.hgvscValidator = none →
      (find_vep_validator_mismatches r).hgvscOldMismatch = true
      ∧ (find_vep_validator_mismatches r).hgvscNewMismatch = true
      ∧ (find_vep_validator_mismatches r).hgvscBothMismatch = true
      ∧ ∀ rows : List ReconciledRow, r ∈ rows →
          0 < hgvscOldMismatchCount rows ∧ 0 < hgvscNewMismatchCount rows
            ∧ 0 < hgvscBothMismatchCount rows)
    ∧ (r.hgvspValidator = none →
      (find_vep_validator_mismatches r).hgvspOldMismatch = true
      ∧ (find_vep_validator_mismatches r).hgvspNewMismatch = true
      ∧ (find_vep_validator_mismatches r).hgvspBothMismatch = true
      ∧ ∀ rows : List ReconciledRow, r ∈ rows →
          0 < hgvspOldMismatchCount rows ∧ 0 < hgvspNewMismatchCount rows
            ∧ 0 < hgvspBothMismatchCount rows)
    ∧ ∀ (vv : List VvBatchRow) (m : MergedRow),
        (∀ v ∈ vv, batchKeyMatch v m = false) →
        merge_mismatches_batch vv [m] = [] := by
  refine ⟨?_, ?_, ?_⟩
  · intro hc
    have hflag : (find_vep_validator_mismatches r).hgvscOldMismatch = true := by
      cases h : r.hgvscOld <;> simp [find_vep_validator_mismatches, pandasNe, hc, h]
    have hflag2 : (find_vep_validator_mismatches r).hgvscNewMismatch = true := by
      cases h : r.hgvscNew <;> simp [find_vep_validator_mismatches, pandasNe, hc, h]
    have hboth : (find_vep_validator_mismatches r).hgvscBothMismatch = true := by
      simp only [find_vep_validator_mismatches] at hflag hflag2 ⊢
      rw [hflag, hflag2]
      rfl
    refine ⟨hflag, hflag2, hboth, ?_⟩
    intro rows hr
    exact ⟨List.length_pos_of_mem (List.mem_filter.mpr ⟨hr, hflag⟩),
      List.length_pos_of_mem (List.mem_filter.mpr ⟨hr, hflag2⟩),
      List.length_pos_of_mem (List.mem_filter.mpr ⟨hr, hboth⟩)⟩
  · intro hp
    have hflag : (find_vep_validator_mismatches r).hgvspOldMismatch = true := by
      cases h : r.hgvspOld <;> simp [find_vep_validator_mismatches, pandasNe, hp, h]
    have hflag2 : (find_vep_validator_mismatches r).hgvspNewMismatch = true := by
      cases h : r.hgvspNew <;> simp [find_vep_validator_mismatches, pandasNe, hp, h]
    have hboth : (find_vep_validator_mismatches r).hgvspBothMismatch = true := by
      simp only [find_vep_validator_mismatches] at hflag hflag2 ⊢
      rw [hflag, hflag2]
      rfl
    refine ⟨hflag, hflag2, hboth, ?_⟩
    intro rows hr
    exact ⟨List.length_pos_of_mem (List.mem_filter.mpr ⟨hr, hflag⟩),
      List.length_pos_of_mem (List.mem_filter.mpr ⟨hr, hflag2⟩),
      List.length_pos_of_mem (List.mem_filter.mpr ⟨hr, hboth⟩)⟩
  · intro vv m hnone
    rw [merge_mismatches_batch]
    apply List.flatMap_eq_nil_iff.mpr
    intro v hv
    simp [List.filter_cons, hnone v hv]

/-- Witness for claim C3 (amended): both null-field branches, a positive
aggregate count for the HGVSp case, and the drop property, at concrete
rows. -/
theorem null_oracle_field_counts_as_mismatch_witness :
    rEx3.hgvscValidator = none
    ∧ rEx3p.hgvspValidator = none
    ∧ (find_vep_validator_mismatches rEx3).hgvscBothMismatch = true
    ∧ (find_vep_validator_mismatches rEx3p).hgvspBothMismatch = true
    ∧ 0 < hgvspOldMismatchCount [rEx3p]
    ∧ merge_mismatches_batch [vvEx1] [mEx1] = [] := by
  have h1 := (null_oracle_field_counts_as_mismatch rEx3).1 rfl
  have h2 := (null_oracle_field_counts_as_mismatch rEx3p).2.1 rfl
  exact ⟨rfl, rfl, h1.2.2.1, h2.2.2.1, (h2.2.2.2 [rEx3p] (by decide)).1,
    (null_oracle_field_counts_as_mismatch rEx3).2.2 [vvEx1] mEx1 (by decide)⟩

/-- Claim C6: convention_changes rewrites only the oracle protein column:
every other column is unchanged; a value ending in the placeholder "p.?"
is rewritten to the single character "."; and any other value has its
parentheses stripped and its "=" percent-encoded as "%3D". -/
theorem convention_changes_spec (r : ReconciledRow) (s : String)
    (hs : r.hgvspValidator = some s) :
    ((convention_changes r).chrom = r.chrom
      ∧ (convention_changes r).pos = r.pos
      ∧ (convention_changes r).ref = r.ref
      ∧ (convention_changes r).alt = r.alt
      ∧ (convention_changes r).feature = r.feature
      ∧ (convention_changes r).consequenceOld = r.consequenceOld
      ∧ (convention_changes r).consequenceNew = r.consequenceNew
      ∧ (convention_changes r).hgvscOld = r.hgvscOld
      ∧ (convention_changes r).hgvscNew = r.hgvscNew
      ∧ (convention_changes r).hgvspOld = r.hgvspOld
      ∧ (convention_changes r).hgvspNew = r.hgvspNew
      ∧ (convention_changes r).hgvscValidator = r.hgvscValidator)
    ∧ (strEndsWith s "p.?" = true →
        (convention_changes r).hgvspValidator = some ".")
    ∧ (strEndsWith s "p.?" = false →
        (convention_changes r).hgvspValidator
          = some (encodeEquals (stripParens s))) := by
  refine ⟨⟨rfl, rfl, rfl, rfl, rfl, rfl, rfl, rfl, rfl, rfl, rfl, rfl⟩, ?_, ?_⟩
  · intro he
    simp [convention_changes, hs, he]
    decide
  · intro he
    simp [convention_changes, hs, he]

/-- Witness for C6: the round-trip of the spec, hgvs_p "NM_000000.1:p.?"
is stored as ".". -/
theorem convention_changes_spec_witness :
    strEndsWith "NM_000000.1:p.?" "p.?" = true
    ∧ (convention_changes rEx6).hgvspValidator = some "." :=
  ⟨by decide,
   (convention_changes_spec rEx6 "NM_000000.1:p.?" rfl).2.1 (by decide)⟩

/-- Counterexample to claim C1: the reconciler in compare_validator_vcf
(merge_mismatches_batch) is an inner join, not a left join: the mismatch
row mEx1, having no key-matching validator row, is dropped from the
output instead of being retained with null oracle fields. -/
theorem merge_mismatches_batch_drops_unmatched :
    merge_mismatches_batch [vvEx1] [mEx1] = [] := by decide

/-- At most one element of a list satisfies a predicate that pins down the
image under an injectively-keyed map. -/
theorem filter_length_le_one_of_nodup_map {α β : Type} [DecidableEq β]
    (l : List α) (f : α → β) (hnd : (l.map f).Nodup) (p : α → Bool) (c : β)
    (hp : ∀ x, p x = true → f x = c) : (l.filter p).length ≤ 1 := by
  induction l with
  | nil => simp
  | cons a tl ih =>
    simp only [List.map_cons, List.nodup_cons] at hnd
    rw [List.filter_cons]
    by_cases hpa : p a = true
    · have hempty : tl.filter p = [] := by
        rw [List.filter_eq_nil_iff]
        intro x hx hpx
        apply hnd.1
        rw [List.mem_map]
        exact ⟨x, hx, (hp x hpx).trans (hp a hpa).symm⟩
      simp [hpa, hempty]
    · rw [Bool.not_eq_true] at hpa
      simp only [hpa]
      exact ih hnd.2

/-- Every row contributed by a left-side row carries that row. -/
theorem mismatch_of_mem_leftMergeRow {vs : List VResult} {a : MergedRow}
    {r : FinalMergedRow} (h : r ∈ leftMergeRow vs a) : r.mismatch = a := by
  rw [leftMergeRow] at h
  by_cases he : (vs.filter fun v => vresultKeyMatch a v).isEmpty
  · simp only [he, if_true] at h
    rw [List.mem_singleton] at h
    rw [h]
  · simp only [he, if_false] at h
    obtain ⟨v, _, rfl⟩ := List.mem_map.mp h
    rfl

/-- With duplicate-free oracle keys, each left-side row contributes
exactly one output row. -/
theorem leftMergeRow_length (vs : List VResult) (a : MergedRow)
    (hkeys : (vs.map fun v => (v.variant, v.feature)).Nodup) :
    (leftMergeRow vs a).length = 1 := by
  rw [leftMergeRow]
  cases he : (vs.filter fun v => vresultKeyMatch a v).isEmpty with
  | true => simp
  | false =>
    simp only [Bool.false_eq_true, if_false, List.length_map]
    have hle : ((vs.filter fun v => vresultKeyMatch a v)).length ≤ 1 := by
      apply filter_length_le_one_of_nodup_map vs (fun v => (v.variant, v.feature))
        hkeys _ (variant_description a, a.feature)
      intro x hx
      simp only [vresultKeyMatch, Bool.and_eq_true, beq_iff_eq] at hx
      rw [Prod.mk.injEq]
      exact ⟨hx.1.symm, hx.2.symm⟩
    have hne : (vs.filter fun v => vresultKeyMatch a v) ≠ [] := by
      intro hnil
      rw [hnil] at he
      simp at he
    have hpos : 0 < ((vs.filter fun v => vresultKeyMatch a v)).length :=
      List.length_pos_of_ne_nil hne
    exact Nat.le_antisymm hle hpos

/-- The filtered length of one block: 1 when the block belongs to the
probed row, 0 otherwise. -/
theorem leftMergeRow_filter_length (vs : List VResult) (a m : MergedRow)
    (hkeys : (vs.map fun v => (v.variant, v.feature)).Nodup) :
    ((leftMergeRow vs a).filter fun r => r.mismatch == m).length
      = if a = m then 1 else 0 := by
  by_cases ham : a = m
  · subst ham
    rw [if_pos rfl, List.filter_eq_self.mpr, leftMergeRow_length vs a hkeys]
    intro r hr
    rw [beq_iff_eq]
    exact mismatch_of_mem_leftMergeRow hr
  · rw [if_neg ham]
    have : ((leftMergeRow vs a).filter fun r => r.mismatch == m) = [] := by
      rw [List.filter_eq_nil_iff]
      intro r hr hbeq
      rw [beq_iff_eq] at hbeq
      exact ham ((mismatch_of_mem_leftMergeRow hr).symm.trans hbeq)
    rw [this]
    rfl

/-- Claim C1 amended: the reconciler in query_validator_api
(gather_vv_files_and_merge_with_vep_mismatches) has left-join semantics:
when the oracle results have duplicate-free (variant, transcript) keys,
every mismatch row appears in the output exactly as often as in the
input, and a mismatch row with no matching oracle result is retained with
null oracle fields; the reconciler in compare_validator_vcf
(merge_mismatches_batch) instead uses an inner join that drops unmatched
mismatch rows (see the counterexample). -/
theorem left_join_retains_mismatches (ms : List MergedRow) (vs : List VResult)
    (hkeys : (vs.map fun v => (v.variant, v.feature)).Nodup) :
    (∀ m : MergedRow,
        ((merge_with_vep_mismatches ms vs).filter fun r => r.mismatch == m).length
          = (ms.filter fun x => x == m).length)
    ∧ ∀ m ∈ ms, (∀ v ∈ vs, vresultKeyMatch m v = false) →
        FinalMergedRow.mk m none none none ∈ merge_with_vep_mismatches ms vs := by
  constructor
  · intro m
    induction ms with
    | nil => rfl
    | cons a tl ih =>
      rw [merge_with_vep_mismatches] at ih ⊢
      rw [List.flatMap_cons, List.filter_append, List.length_append, ih,
        List.filter_cons, leftMergeRow_filter_length vs a m hkeys]
      by_cases ham : a = m
      · simp [ham, Nat.add_comm]
      · have : (a == m) = false := by
          rw [beq_eq_false_iff_ne]
          exact ham
        simp [ham, this]
  · intro m hm hnone
    rw [merge_with_vep_mismatches, List.mem_flatMap]
    refine ⟨m, hm, ?_⟩
    have hempty : (vs.filter fun v => vresultKeyMatch m v) = [] := by
      rw [List.filter_eq_nil_iff]
      intro v hv
      simp [hnone v hv]
    rw [leftMergeRow, hempty]
    simp

/-- Witness for C1 (amended): with one oracle result matching mEx1 only,
the unmatched row mEx1b is retained with null oracle fields. -/
theorem left_join_retains_mismatches_witness :
    (([vEx1].map fun v => (v.variant, v.feature)).Nodup)
    ∧ FinalMergedRow.mk mEx1b none none none
        ∈ merge_with_vep_mismatches [mEx1, mEx1b] [vEx1] := by
  refine ⟨by decide, (left_join_retains_mismatches [mEx1, mEx1b] [vEx1]
    (by decide)).2 mEx1b (by decide) ?_⟩
  intro v hv
  rw [List.mem_singleton] at hv
  subst hv
  decide

/-- Counterexample to claim C2: with two queued work items and an oracle
answering 429 to everything, the batch loop aborts after the 5 attempts
spent on the first item: the retry-exhaustion error propagates (aborted is
true), the second item is never queried (calls stays 5), and no chunk
output is written — the claim says the item is merely marked unanswered
and the batch completes for the remaining items. -/
theorem batch_aborts_on_rate_limit_exhaustion :
    query_chunks_and_output (fun _ _ => ⟨429, []⟩) (fun _ => false)
        [[wEx2a, wEx2b]]
      = ⟨[], 5, true⟩ := by
  rfl

/-- Claim C2 amended: a work item whose every oracle request returns HTTP
429 is attempted exactly 5 times; the retry wrapper then raises a
retry-exhaustion error that propagates out of the batch loop, so the item
is not marked unanswered, the remaining items of the batch are not
processed, and no chunk output is written. -/
theorem retry_exhaustion_aborts_batch (oracle : WorkItem → Nat → HttpResp)
    (w : WorkItem) (h : ∀ k, (oracle w k).status = 429) :
    fetch_endpoint (oracle w) = (FetchOutcome.retryError, 5)
    ∧ ∀ (ws : List WorkItem) (cs : List (List WorkItem)),
        query_chunks_and_output oracle (fun _ => false) ((w :: ws) :: cs)
          = ⟨[], 5, true⟩ := by
  have hato : ∀ k, attemptOutcome (oracle w k) = AttemptOutcome.raised := by
    intro k
    simp [attemptOutcome, h k]
  have hf : fetch_endpoint (oracle w) = (FetchOutcome.retryError, 5) := by
    simp [fetch_endpoint, fetchGo, hato]
  refine ⟨hf, fun ws cs => ?_⟩
  simp [query_chunks_and_output, enumerateFrom, runChunks, processItems, hf]

/-- Witness for C2 (amended): the all-429 oracle exhausts the 5 attempts. -/
theorem retry_exhaustion_aborts_batch_witness :
    fetch_endpoint ((fun _ _ => ⟨429, []⟩ : WorkItem → Nat → HttpResp) wEx2a)
      = (FetchOutcome.retryError, 5) :=
  (retry_exhaustion_aborts_batch (fun _ _ => ⟨429, []⟩) wEx2a (fun _ => rfl)).1

/-- Claim C8: a query answered with HTTP 500 on its first attempt is not
retried (exactly one request is made), records no answer, and the batch
continues: processing a batch beginning with such an item gives exactly
the results of the batch without it, at the cost of one extra request,
and aborts only if the remainder does. -/
theorem server_error_skipped_batch_continues
    (oracle : WorkItem → Nat → HttpResp) (w : WorkItem)
    (h : (oracle w 0).status = 500) :
    fetch_endpoint (oracle w) = (FetchOutcome.skipped, 1)
    ∧ ∀ ws : List WorkItem,
        processItems oracle (w :: ws)
          = ((processItems oracle ws).1, 1 + (processItems oracle ws).2) := by
  have hato : attemptOutcome (oracle w 0) = AttemptOutcome.returnedNone := by
    simp [attemptOutcome, h]
  have hf : fetch_endpoint (oracle w) = (FetchOutcome.skipped, 1) := by
    simp [fetch_endpoint, fetchGo, hato]
  refine ⟨hf, fun ws => ?_⟩
  simp [processItems, hf]

/-- Witness for C8: the constant-500 oracle is skipped after one request
and the singleton batch completes with no recorded answers. -/
theorem server_error_skipped_batch_continues_witness :
    fetch_endpoint ((fun _ _ => ⟨500, []⟩ : WorkItem → Nat → HttpResp) wEx8)
      = (FetchOutcome.skipped, 1)
    ∧ processItems (fun _ _ => ⟨500, []⟩) [wEx8] = (some [], 1) := by
  have h := server_error_skipped_batch_continues (fun _ _ => ⟨500, []⟩) wEx8 rfl
  refine ⟨h.1, ?_⟩
  rw [h.2 []]
  rfl

/-- Skipping existing chunks is the same as never having been given them. -/
theorem runChunks_skip_eq (oracle : WorkItem → Nat → HttpResp)
    (existing : Nat → Bool) (pairs : List (Nat × List WorkItem)) :
    runChunks oracle existing pairs
      = runChunks oracle (fun _ => false)
          (pairs.filter fun p => !(existing p.1)) := by
  induction pairs with
  | nil => rfl
  | cons p rest ih =>
    obtain ⟨i, c⟩ := p
    rw [List.filter_cons]
    cases hex : existing i with
    | true =>
      simp only [hex, Bool.not_true, Bool.false_eq_true, if_false]
      rw [runChunks, if_pos hex, ih]
    | false =>
      simp only [hex, Bool.not_false, if_true]
      rw [runChunks, if_neg (by rw [hex]; exact Bool.false_ne_true), runChunks,
        if_neg Bool.false_ne_true]
      cases hpi : processItems oracle c with
      | mk fst snd =>
        cases fst with
        | none => rfl
        | some res => simp [ih]

/-- Claim C9: a batch invocation behaves exactly as if the chunks whose
output artifact already exists were absent from the input: those chunks
trigger zero network calls and no writes (their artifacts are untouched),
while the remaining chunks are processed normally under their original
indices; with every artifact present, the run makes no calls and writes
nothing. -/
theorem existing_chunk_skipped (oracle : WorkItem → Nat → HttpResp)
    (existing : Nat → Bool) (chunks : List (List WorkItem)) :
    (query_chunks_and_output oracle existing chunks
      = runChunks oracle (fun _ => false)
          ((enumerateFrom 0 chunks).filter fun p => !(existing p.1)))
    ∧ query_chunks_and_output oracle (fun _ => true) chunks
      = ⟨[], 0, false⟩ := by
  constructor
  · exact runChunks_skip_eq oracle existing (enumerateFrom 0 chunks)
  · rw [query_chunks_and_output,
      runChunks_skip_eq oracle (fun _ => true) (enumerateFrom 0 chunks)]
    simp [runChunks]

end DI1141
